import Mathlib

/-!
# go-cli: project scaffolding (`Go-CLI.go`)

A shallow embedding of `Go-CLI.go`.  The program is sequential orchestration over
the operating system, so the embedding is explicit state passing over a `World`:
the filesystem together with the ordered list of side effects performed so far.
Everything the program cannot decide by itself (whether a system call faults, what an
external command does, what the user answers, how the platform joins paths) is a field
of an environment `Env`, so every theorem quantified over `Env` holds for every
behaviour of the operating system and of the libraries.

Errors are Go `error` values; they are represented by their message (`err.Error()`).
File permissions (`os.ModePerm`) are not represented.
-/

set_option maxRecDepth 100000

namespace GoCli

/-! ## Filesystem -/

/-- A filesystem entry: a directory or a regular file with its bytes. -/
inductive Node where
  | dir
  | file (content : String)
  deriving DecidableEq, Repr

/-- The filesystem: a finite map from path to entry, first binding wins. -/
abbrev FS := List (String × Node)

/-- The entry bound to a path, if any. -/
def FS.lookup : FS → String → Option Node
  | [], _ => none
  | (k, n) :: rest, p => if k = p then some n else FS.lookup rest p

/-- Whether a path is present on the filesystem. -/
def FS.present (fs : FS) (p : String) : Bool := (fs.lookup p).isSome

/-- Remove every binding of a path. -/
def FS.erase : FS → String → FS
  | [], _ => []
  | (k, n) :: rest, p => if k = p then FS.erase rest p else (k, n) :: FS.erase rest p

/-- Bind a path to an entry, replacing any previous binding. -/
def FS.insert (fs : FS) (p : String) (n : Node) : FS :=
  (p, n) :: fs.erase p

/-! ## Side effects and the world -/

/-- Colours used by `github.com/fatih/color`. -/
inductive Color where
  | yellow
  | green
  deriving DecidableEq, Repr

/-- The side effects of the program, in the order they are performed.
`stdout c text` is text written on standard output (`fmt.Println`, `fmt.Printf`, and
`color.Yellow`/`color.Green` when `c` is a colour); `cobraError` is cobra's own report of
a command-line error, the only output on standard error; `exec command cwd` is
`exec.Command("cmd", "/C", command)` run with working directory `cwd`; `writeFile` and
`mkdirAll` record the call, whether or not it succeeds. -/
inductive Effect where
  | stdout (color : Option Color) (text : String)
  | cobraError (err : String)
  | help
  | surveyAsk
  | mkdirAll (path : String)
  | spinnerStart
  | spinnerStop
  | exec (command cwd : String)
  | writeFile (path content : String)
  deriving DecidableEq, Repr

/-- Whether an effect writes on standard error. -/
def Effect.isStderr : Effect → Bool
  | .cobraError _ => true
  | _ => false

/-- The state threaded through the program: filesystem and effects so far. -/
structure World where
  fs : FS
  effects : List Effect
  deriving DecidableEq, Repr

/-- Record one more effect. -/
def World.emit (w : World) (e : Effect) : World :=
  { w with effects := w.effects ++ [e] }

/-! ## The program's data -/

/-- The record `ProjectConfig` (source lines 29-33). -/
structure ProjectConfig where
  projectName : String
  gitInit : Bool
  template : String
  deriving DecidableEq, Repr

/-- What an external command did: the filesystem it left, its combined output, and the
error of `cmd.CombinedOutput()` (`none` for exit status 0). -/
structure CmdOutcome where
  fs : FS
  output : String
  err : Option String

/-- Everything outside the program.  `join` is `filepath.Join`; `parents` lists the
proper ancestors of a path, which `os.MkdirAll` creates when missing; `statFault` and
`readFault` say whether `os.Stat` and `ioutil.ReadFile` fail for a reason other than a
missing path (permissions, I/O errors); `mkdirFault` and `writeFault` say whether
`os.MkdirAll` and `ioutil.WriteFile` fail, and with which error; `runCmd command cwd fs`
is the behaviour of an external command, which may change the filesystem at will,
whether it fails or not; `jsonUnmarshal` is `json.Unmarshal` into a zero
`ProjectConfig` (the record as filled, and the error); `surveyAsk` is the outcome of
the interactive questionnaire `survey.Ask` (the answers, and the error). -/
structure Env where
  join : String → String → String
  parents : String → List String
  statFault : FS → String → Option String
  mkdirFault : FS → String → Option String
  writeFault : FS → String → String → Option String
  readFault : FS → String → Option String
  runCmd : String → String → FS → CmdOutcome
  jsonUnmarshal : String → ProjectConfig × Option String
  surveyAsk : ProjectConfig × Option String

/-! ## Operating-system calls -/

/-- The error of `os.Stat`, as far as the program inspects it. -/
inductive StatErr where
  | notExist
  | other (msg : String)
  deriving DecidableEq, Repr

/-- The error returned by `os.Stat(path)`: `none` when the path is present. -/
def osStat (env : Env) (fs : FS) (path : String) : Option StatErr :=
  match env.statFault fs path with
  | some m => some (.other m)
  | none => if fs.present path then none else some .notExist

/-- The function `os.IsNotExist`. -/
def isNotExist : Option StatErr → Bool
  | some .notExist => true
  | _ => false

/-- The call `os.MkdirAll(path, os.ModePerm)`: unless it fails, the path and its missing
ancestors become directories; entries already present are left alone. -/
def mkdirAll (env : Env) (path : String) (w : World) : World × Option String :=
  let w1 := w.emit (.mkdirAll path)
  match env.mkdirFault w.fs path with
  | some e => (w1, some e)
  | none =>
    let fs1 := (env.parents path ++ [path]).foldl
      (fun fs d => if fs.present d then fs else fs.insert d .dir) w.fs
    ({ w1 with fs := fs1 }, none)

/-- The call `ioutil.WriteFile(path, content, os.ModePerm)`: unless it fails, the path
holds exactly `content` afterwards; a failed call leaves the filesystem as it was. -/
def writeFile (env : Env) (path content : String) (w : World) : World × Option String :=
  let w1 := w.emit (.writeFile path content)
  match env.writeFault w.fs path content with
  | some e => (w1, some e)
  | none => ({ w1 with fs := w.fs.insert path (.file content) }, none)

/-- The call `ioutil.ReadFile(path)`. -/
def readFile (env : Env) (fs : FS) (path : String) : Except String String :=
  match env.readFault fs path with
  | some e => .error e
  | none =>
    match fs.lookup path with
    | some (.file c) => .ok c
    | some .dir => .error ("read " ++ path ++ ": is a directory")
    | none => .error ("open " ++ path ++ ": no such file or directory")

/-! ## The source functions -/

/-- The variable `version` (source line 19). -/
def version : String := "1.0.0"

/-- Source lines 103-111. -/
def readConfig (env : Env) (filePath : String) (fs : FS) : ProjectConfig × Option String :=
  match readFile env fs filePath with
  | .error e => (⟨"", false, ""⟩, some e)
  | .ok data => env.jsonUnmarshal data

/-- Source lines 113-116: prints a notice and returns `nil`. -/
def checkForUpdates (_packageName _currentVersion : String) (w : World) :
    World × Option String :=
  (w.emit (.stdout (some .yellow)
    "Checking for updates is not implemented in this Go version.\n"), none)

/-- Source lines 118-126. -/
def execCommand (env : Env) (command cwd : String) (w : World) : World × Option String :=
  let o := env.runCmd command cwd w.fs
  let w1 : World := ⟨o.fs, w.effects ++ [.exec command cwd]⟩
  match o.err with
  | some e => (w1, some ("error executing command: " ++ e ++ ", output: " ++ o.output))
  | none => (w1, none)

/-- The literal `mainGoContent` of `createBasicTemplate` (source lines 178-185). -/
def basicMainGoContent : String :=
  "package main\n\nimport \"fmt\"\n\nfunc main() \x7b\n\tfmt.Println(\"Hello, world!\")\n\x7d\n"

/-- The literal `mainGoContent` of `createWebServerTemplate` (source lines 190-203). -/
def webServerMainGoContent : String :=
  "package main\n\nimport (\n\t\"log\"\n\t\"net/http\"\n)\n\nfunc main() \x7b\n\thttp.HandleFunc(\"/\", func(w http.ResponseWriter, r *http.Request) \x7b\n\t\tw.Write([]byte(\"Hello, web server!\"))\n\t\x7d)\n\tlog.Fatal(http.ListenAndServe(\":8080\", nil))\n\x7d\n"

/-- The literal `mainGoContent` of `createCLIToolTemplate` (source lines 208-221). -/
def cliToolMainGoContent : String :=
  "package main\n\nimport (\n\t\"flag\"\n\t\"fmt\"\n)\n\nfunc main() \x7b\n\tvar name string\n\tflag.StringVar(&name, \"name\", \"world\", \"name to greet\")\n\tflag.Parse()\n\tfmt.Printf(\"Hello, %s!\\n\", name)\n\x7d\n"

/-- Source lines 177-187. -/
def createBasicTemplate (env : Env) (projectPath : String) (w : World) :
    World × Option String :=
  writeFile env (env.join projectPath "main.go") basicMainGoContent w

/-- Source lines 189-205. -/
def createWebServerTemplate (env : Env) (projectPath : String) (w : World) :
    World × Option String :=
  writeFile env (env.join projectPath "main.go") webServerMainGoContent w

/-- Source lines 207-223. -/
def createCLIToolTemplate (env : Env) (projectPath : String) (w : World) :
    World × Option String :=
  writeFile env (env.join projectPath "main.go") cliToolMainGoContent w

/-- The `switch template` statement of `createGoProjectStructure` (source lines
149-156).  The error returned by the template function is dropped, as in the source. -/
def templateSwitch (env : Env) (projectPath template : String) (w : World) : World :=
  if template = "web-server" then (createWebServerTemplate env projectPath w).1
  else if template = "cli-tool" then (createCLIToolTemplate env projectPath w).1
  else (createBasicTemplate env projectPath w).1

/-- The `if gitInit` statement of `createGoProjectStructure` (source lines 158-165). -/
def gitInitStep (env : Env) (projectPath : String) (gitInit : Bool) (w : World) : World :=
  if gitInit then
    match execCommand env "git init" projectPath w with
    | (w1, some _) =>
      w1.emit (.stdout (some .yellow) "Git is not installed or initialization failed.\n")
    | (w1, none) => w1.emit (.stdout (some .green) "Git repository initialized.\n")
  else w

/-- The value `readmeContent` (source line 167). -/
def readmeContent (projectName : String) : String :=
  "# " ++ projectName ++ "\n\nYour project description here."

/-- Source lines 128-175.  The deferred `spinner.Stop()` runs on every return after
`spinner.Start()`. -/
def createGoProjectStructure (env : Env) (projectName : String) (gitInit : Bool)
    (template : String) (w : World) : World × Option String :=
  let projectPath := env.join "." projectName
  if !isNotExist (osStat env w.fs projectPath) then
    (w, some ("directory " ++ projectPath ++ " already exists"))
  else
    match mkdirAll env projectPath w with
    | (w1, some e) => (w1, some e)
    | (w1, none) =>
      match execCommand env ("go mod init " ++ projectName) projectPath
          (w1.emit .spinnerStart) with
      | (w2, some e) => (w2.emit .spinnerStop, some e)
      | (w2, none) =>
        let w3 := templateSwitch env projectPath template w2
        let w4 := gitInitStep env projectPath gitInit w3
        match writeFile env (env.join projectPath "README.md") (readmeContent projectName)
            w4 with
        | (w5, some e) => (w5.emit .spinnerStop, some e)
        | (w5, none) =>
          ((w5.emit (.stdout (some .green)
              ("Go project " ++ projectName ++ " has been created successfully!\n"))).emit
            .spinnerStop, none)

/-- The command-line flags as cobra parsed them (`configFile` is the global of source
line 25). -/
structure Flags where
  version : Bool
  help : Bool
  configFile : String
  deriving DecidableEq, Repr

/-- Source lines 41-101. -/
def run (env : Env) (flags : Flags) (w : World) : World :=
  if flags.version then w.emit (.stdout none ("go-cli version " ++ version ++ "\n"))
  else if flags.help then w.emit .help
  else
    match checkForUpdates "go-cli" version w with
    | (w1, some e) => w1.emit (.stdout none ("Error checking for updates: " ++ e ++ "\n"))
    | (w1, none) =>
      if flags.configFile ≠ "" then
        match readConfig env flags.configFile w1.fs with
        | (_, some e) =>
          w1.emit (.stdout none ("Error reading configuration file: " ++ e ++ "\n"))
        | (answers, none) =>
          match createGoProjectStructure env answers.projectName answers.gitInit
              answers.template w1 with
          | (w2, some e) =>
            w2.emit (.stdout none ("Error during project setup: " ++ e ++ "\n"))
          | (w2, none) => w2
      else
        match env.surveyAsk with
        | (_, some e) =>
          (w1.emit .surveyAsk).emit (.stdout none ("Error asking questions: " ++ e ++ "\n"))
        | (answers, none) =>
          match createGoProjectStructure env answers.projectName answers.gitInit
              answers.template (w1.emit .surveyAsk) with
          | (w2, some e) =>
            w2.emit (.stdout none ("Error during project setup: " ++ e ++ "\n"))
          | (w2, none) => w2

/-- What `rootCmd.Execute()` makes of the command line: an error of its own (an unknown
flag, a missing flag argument), or a successful parse, after which it calls `run` and,
`run` returning nothing, returns `nil`. -/
inductive Invocation where
  | flagError (err : String)
  | parsed (flags : Flags)
  deriving DecidableEq, Repr

/-- Source lines 225-230: the final world and the exit code of the process. -/
def main (env : Env) (inv : Invocation) (w : World) : World × Nat :=
  match inv with
  | .flagError err => ((w.emit (.cobraError err)).emit (.stdout none (err ++ "\n")), 1)
  | .parsed flags => (run env flags w, 0)

/-! ## A concrete environment

A POSIX-flavoured instance of `Env`, used to run the program on concrete inputs.
`posixJoin` follows `filepath.Join` of the Go standard library (join with `/`, then
`filepath.Clean`). -/

/-- Split a path at every `/`. -/
def splitSlash : List Char → List (List Char)
  | [] => [[]]
  | c :: cs =>
    if c = '/' then [] :: splitSlash cs
    else
      match splitSlash cs with
      | [] => [[c]]
      | h :: t => (c :: h) :: t

/-- One path element of `filepath.Clean`, on the reversed list of elements kept so far:
empty and `.` elements vanish, `..` removes the previous element when there is one to
remove, and is kept otherwise unless the path is rooted. -/
def cleanStep (rooted : Bool) (acc : List (List Char)) (elem : List Char) :
    List (List Char) :=
  if elem = [] ∨ elem = ['.'] then acc
  else if elem = ['.', '.'] then
    match acc with
    | [] => if rooted then [] else [elem]
    | top :: rest => if top = ['.', '.'] then elem :: acc else rest
  else elem :: acc

/-- Put `/` between path elements. -/
def joinSlash : List (List Char) → List Char
  | [] => []
  | [e] => e
  | e :: rest => e ++ '/' :: joinSlash rest

/-- The function `filepath.Clean` on a POSIX system. -/
def posixClean (path : String) : String :=
  match path.data with
  | [] => "."
  | c :: cs =>
    let rooted : Bool := decide (c = '/')
    let elems := ((splitSlash (c :: cs)).foldl (cleanStep rooted) []).reverse
    if rooted then String.mk ('/' :: joinSlash elems)
    else if elems = [] then "." else String.mk (joinSlash elems)

/-- The function `filepath.Join` for two elements on a POSIX system. -/
def posixJoin (a b : String) : String :=
  if a = "" then (if b = "" then "" else posixClean b)
  else posixClean (a ++ "/" ++ b)

/-- The proper ancestors of a relative path, outermost first. -/
def posixParents (path : String) : List String :=
  let elems := splitSlash path.data
  (List.range (elems.length - 1)).filterMap fun i =>
    let pre := joinSlash (elems.take (i + 1))
    if pre = [] then none else some (String.mk pre)

/-- A configuration file asking for project `demo`, with git, template `basic`. -/
def demoJson : String :=
  "\x7b\"projectName\": \"demo\", \"gitInit\": true, \"template\": \"basic\"\x7d"

/-- A configuration file whose project name is empty. -/
def emptyNameJson : String :=
  "\x7b\"projectName\": \"\", \"gitInit\": false, \"template\": \"basic\"\x7d"

/-- A machine on which every system call and command succeeds, except as the three
switches say: `go mod init` creates `go.mod`, `git init` creates `.git`; the
questionnaire is answered with `answers`. -/
def mkEnv (modFails gitFails mainGoFails : Bool) (answers : ProjectConfig) : Env where
  join := posixJoin
  parents := posixParents
  statFault := fun _ _ => none
  mkdirFault := fun _ _ => none
  writeFault := fun _ path _ =>
    if mainGoFails ∧ path = "demo/main.go" then
      some "open demo/main.go: There is not enough space on the disk."
    else none
  readFault := fun _ _ => none
  runCmd := fun command cwd fs =>
    if command = "git init" then
      if gitFails then
        ⟨fs, "git is not recognized as an internal or external command", some "exit status 1"⟩
      else ⟨fs.insert (posixJoin cwd ".git") .dir, "Initialized empty Git repository", none⟩
    else if modFails then
      ⟨fs, "go is not recognized as an internal or external command", some "exit status 1"⟩
    else ⟨fs.insert (posixJoin cwd "go.mod") (.file "module"), "go: creating new go.mod", none⟩
  jsonUnmarshal := fun data =>
    if data = demoJson then (⟨"demo", true, "basic"⟩, none)
    else if data = emptyNameJson then (⟨"", false, "basic"⟩, none)
    else (⟨"", false, ""⟩, some "invalid character")
  surveyAsk := (answers, none)

/-- The answers `demo`, with git, template `basic`. -/
def demoBasic : ProjectConfig := ⟨"demo", true, "basic"⟩

/-- A machine on which everything succeeds. -/
def okEnv : Env := mkEnv false false false demoBasic

/-- An empty working directory, nothing done yet. -/
def emptyDir : World := ⟨[(".", .dir)], []⟩

/-- A working directory that already holds `demo`, nothing done yet. -/
def demoTaken : World := ⟨[(".", .dir), ("demo", .dir)], []⟩

/-- A working directory holding the two configuration files. -/
def withConfigs : World :=
  ⟨[(".", .dir), ("demo.json", .file demoJson), ("empty.json", .file emptyNameJson)], []⟩

/-! ## Auxiliary definitions used in the statements -/

/-- The statements of `createGoProjectStructure` after the template switch and the
git step (source lines 167-174), on the world `w4` they start from. -/
def finish (env : Env) (projectName : String) (w4 : World) : World × Option String :=
  match writeFile env (env.join (env.join "." projectName) "README.md")
      (readmeContent projectName) w4 with
  | (w5, some e) => (w5.emit .spinnerStop, some e)
  | (w5, none) =>
    ((w5.emit (.stdout (some .green)
        ("Go project " ++ projectName ++ " has been created successfully!\n"))).emit
      .spinnerStop, none)

/-- A machine without git: `git init` fails, everything else succeeds. -/
def noGitEnv : Env := mkEnv false true false demoBasic

/-- A machine without the go tool chain: `go mod init` fails. -/
def noGoEnv : Env := mkEnv true false false demoBasic

/-- A machine on which the command line `go mod init a&b` fails after it has written
`go.mod`: under `cmd /C` the `&` separates two commands, `go mod init a`, which
succeeds, and `b`, which does not exist, and the exit status is that of the last one.
Every other command and system call behaves as on `okEnv`. -/
def ampersandEnv : Env :=
  { okEnv with
    runCmd := fun command cwd fs =>
      if command = "go mod init a&b" then
        ⟨fs.insert (posixJoin cwd "go.mod") (.file "module a"),
         "go: creating new go.mod: module a; b is not recognized as an internal or external command",
         some "exit status 1"⟩
      else okEnv.runCmd command cwd fs }

/-- A machine on which writing `demo/main.go` fails and everything else succeeds. -/
def mainGoFaultEnv : Env := mkEnv false false true demoBasic

/-- The same world with earlier effects `pre` put in front of its own. -/
def World.onto (pre : List Effect) (w : World) : World := ⟨w.fs, pre ++ w.effects⟩

/-- A list of effects none of which writes on standard error. -/
def noStderr (es : List Effect) : Prop := ∀ e ∈ es, e.isStderr = false

/-- The notice printed by `checkForUpdates`. -/
def updateNotice : Effect :=
  .stdout (some .yellow) "Checking for updates is not implemented in this Go version.\n"

/-- The effects of the last statement of `run` (source lines 97-100) for the answers
`answers`, on the filesystem `fs`: those of `createGoProjectStructure`, then the error
message if it failed. -/
def setupEffects (env : Env) (answers : ProjectConfig) (fs : FS) : List Effect :=
  (createGoProjectStructure env answers.projectName answers.gitInit answers.template
    ⟨fs, []⟩).1.effects ++
  match (createGoProjectStructure env answers.projectName answers.gitInit answers.template
    ⟨fs, []⟩).2 with
  | some e => [.stdout none ("Error during project setup: " ++ e ++ "\n")]
  | none => []

/-! ## Lemmas on the filesystem and on the steps of `createGoProjectStructure` -/

theorem FS.lookup_erase_ne (fs : FS) (p q : String) (h : q ≠ p) :
    FS.lookup (fs.erase p) q = FS.lookup fs q := by
  induction fs with
  | nil => rfl
  | cons e rest ih =>
    obtain ⟨k, n⟩ := e
    by_cases hk : k = p
    · have hkq : ¬ p = q := fun hq => h hq.symm
      simp [FS.erase, hk, FS.lookup, hkq, ih]
    · by_cases hkq : k = q
      · subst hkq
        simp [FS.erase, hk, FS.lookup]
      · simp [FS.erase, hk, FS.lookup, hkq, ih]

/-- A path holds what was last bound to it. -/
theorem FS.lookup_insert_self (fs : FS) (p : String) (n : Node) :
    (fs.insert p n).lookup p = some n := by
  simp [FS.insert, FS.lookup]

/-- Binding a path leaves every other path as it was. -/
theorem FS.lookup_insert_ne (fs : FS) (p q : String) (n : Node) (h : q ≠ p) :
    (fs.insert p n).lookup q = fs.lookup q := by
  have hpq : p ≠ q := fun e => h e.symm
  simp only [FS.insert, FS.lookup, hpq, if_false]
  exact FS.lookup_erase_ne fs p q h

/-- A path that is absent or a directory stays so while directories are created. -/
theorem mkdir_fold_dir (ds : List String) (fs : FS) (p : String)
    (h : fs.lookup p = none ∨ fs.lookup p = some .dir) :
    (ds.foldl (fun fs d => if fs.present d then fs else fs.insert d .dir) fs).lookup p = none ∨
    (ds.foldl (fun fs d => if fs.present d then fs else fs.insert d .dir) fs).lookup p
      = some .dir := by
  induction ds generalizing fs with
  | nil => simpa using h
  | cons d rest ih =>
    simp only [List.foldl_cons]
    apply ih
    by_cases hd : fs.present d = true
    · simpa [hd] using h
    · simp only [hd, if_false, Bool.false_eq_true]
      by_cases hpd : p = d
      · subst hpd
        right
        exact FS.lookup_insert_self fs p .dir
      · rw [FS.lookup_insert_ne fs d p .dir hpd]
        exact h

/-- After a successful `MkdirAll` of an absent path, the path is a directory. -/
theorem mkdirAll_creates (env : Env) (path : String) (w w1 : World)
    (habsent : w.fs.present path = false) (hmk : mkdirAll env path w = (w1, none)) :
    w1.fs.lookup path = some .dir ∧ w1.effects = w.effects ++ [.mkdirAll path] := by
  unfold mkdirAll at hmk
  cases hf : env.mkdirFault w.fs path with
  | some e => simp [hf] at hmk
  | none =>
    simp only [hf, Prod.mk.injEq, and_true] at hmk
    subst hmk
    refine ⟨?_, rfl⟩
    simp only [World.emit, List.foldl_append, List.foldl_cons, List.foldl_nil]
    have hnone : w.fs.lookup path = none := by
      simpa [FS.present] using habsent
    have hpre := mkdir_fold_dir (env.parents path) w.fs path (Or.inl hnone)
    split
    · rename_i hp
      rcases hpre with hpre | hpre
      · simp only [FS.present] at hp hpre
        rw [hpre] at hp
        simp at hp
      · exact hpre
    · exact FS.lookup_insert_self _ path .dir

/-- The guard of `createGoProjectStructure` passes exactly when `os.Stat` reports that
the path does not exist, which needs the path to be absent. -/
theorem isNotExist_osStat (env : Env) (fs : FS) (path : String) :
    isNotExist (osStat env fs path) = true ↔
      env.statFault fs path = none ∧ fs.present path = false := by
  unfold osStat
  cases hf : env.statFault fs path with
  | some m => simp [isNotExist]
  | none =>
    cases hp : fs.present path <;> simp [isNotExist]

/-- The run of `createGoProjectStructure` when the guard fires. -/
theorem create_guard (env : Env) (projectName : String) (gitInit : Bool) (template : String)
    (w : World) (h : isNotExist (osStat env w.fs (env.join "." projectName)) = false) :
    createGoProjectStructure env projectName gitInit template w =
      (w, some ("directory " ++ env.join "." projectName ++ " already exists")) := by
  simp [createGoProjectStructure, h]

/-- The run of `createGoProjectStructure` when `MkdirAll` fails. -/
theorem create_mkdir_fails (env : Env) (projectName : String) (gitInit : Bool)
    (template : String) (w w1 : World) (e : String)
    (hstat : isNotExist (osStat env w.fs (env.join "." projectName)) = true)
    (hmk : mkdirAll env (env.join "." projectName) w = (w1, some e)) :
    createGoProjectStructure env projectName gitInit template w = (w1, some e) := by
  simp [createGoProjectStructure, hstat, hmk]

/-- The run of `createGoProjectStructure` when `go mod init` fails. -/
theorem create_mod_fails (env : Env) (projectName : String) (gitInit : Bool)
    (template : String) (w w1 w2 : World) (e : String)
    (hstat : isNotExist (osStat env w.fs (env.join "." projectName)) = true)
    (hmk : mkdirAll env (env.join "." projectName) w = (w1, none))
    (hmod : execCommand env ("go mod init " ++ projectName) (env.join "." projectName)
      (w1.emit .spinnerStart) = (w2, some e)) :
    createGoProjectStructure env projectName gitInit template w =
      (w2.emit .spinnerStop, some e) := by
  simp [createGoProjectStructure, hstat, hmk, hmod]

/-- The run of `createGoProjectStructure` once `go mod init` has succeeded. -/
theorem create_mod_ok (env : Env) (projectName : String) (gitInit : Bool)
    (template : String) (w w1 w2 : World)
    (hstat : isNotExist (osStat env w.fs (env.join "." projectName)) = true)
    (hmk : mkdirAll env (env.join "." projectName) w = (w1, none))
    (hmod : execCommand env ("go mod init " ++ projectName) (env.join "." projectName)
      (w1.emit .spinnerStart) = (w2, none)) :
    createGoProjectStructure env projectName gitInit template w =
      finish env projectName (gitInitStep env (env.join "." projectName) gitInit
        (templateSwitch env (env.join "." projectName) template w2)) := by
  simp only [createGoProjectStructure, hstat, hmk, hmod, finish]
  rfl

/-- When the last statements report success, `README.md` holds the README text. -/
theorem finish_ok (env : Env) (projectName : String) (w4 : World)
    (h : (finish env projectName w4).2 = none) :
    (finish env projectName w4).1.fs.lookup
        (env.join (env.join "." projectName) "README.md")
      = some (.file (readmeContent projectName)) ∧
    env.writeFault w4.fs (env.join (env.join "." projectName) "README.md")
      (readmeContent projectName) = none := by
  unfold finish writeFile at *
  cases hf : env.writeFault w4.fs (env.join (env.join "." projectName) "README.md")
      (readmeContent projectName) with
  | some e => simp [hf] at h
  | none => simp [hf, World.emit, FS.lookup_insert_self]

/-- The last statements when the README write does not fault. -/
theorem finish_eq (env : Env) (projectName : String) (w4 : World)
    (h : env.writeFault w4.fs (env.join (env.join "." projectName) "README.md")
      (readmeContent projectName) = none) :
    finish env projectName w4 =
      (⟨w4.fs.insert (env.join (env.join "." projectName) "README.md")
          (.file (readmeContent projectName)),
        w4.effects ++ [.writeFile (env.join (env.join "." projectName) "README.md")
            (readmeContent projectName),
          .stdout (some .green)
            ("Go project " ++ projectName ++ " has been created successfully!\n"),
          .spinnerStop]⟩, none) := by
  simp [finish, writeFile, h, World.emit]

/-- Success of the whole run is success of its last statements, from some world. -/
theorem create_ok_finish (env : Env) (projectName : String) (gitInit : Bool)
    (template : String) (w : World)
    (h : (createGoProjectStructure env projectName gitInit template w).2 = none) :
    ∃ w4, createGoProjectStructure env projectName gitInit template w =
      finish env projectName w4 := by
  by_cases hstat : isNotExist (osStat env w.fs (env.join "." projectName)) = true
  · rcases hmk : mkdirAll env (env.join "." projectName) w with ⟨w1, _ | e⟩
    · rcases hmod : execCommand env ("go mod init " ++ projectName)
          (env.join "." projectName) (w1.emit .spinnerStart) with ⟨w2, _ | e⟩
      · exact ⟨_, create_mod_ok env projectName gitInit template w w1 w2 hstat hmk hmod⟩
      · rw [create_mod_fails env projectName gitInit template w w1 w2 e hstat hmk hmod] at h
        simp at h
    · rw [create_mkdir_fails env projectName gitInit template w w1 e hstat hmk] at h
      simp at h
  · rw [create_guard env projectName gitInit template w (by simpa using hstat)] at h
    simp at h

/-- A `WriteFile` call records itself, whether it succeeds or not. -/
theorem writeFile_effects (env : Env) (path content : String) (w : World) :
    (writeFile env path content w).1.effects = w.effects ++ [.writeFile path content] := by
  unfold writeFile
  cases env.writeFault w.fs path content <;> rfl

theorem emit_onto (pre : List Effect) (w : World) (e : Effect) :
    (w.onto pre).emit e = (w.emit e).onto pre := by
  simp [World.onto, World.emit]

/-- Effects performed earlier do not influence `MkdirAll`. -/
theorem mkdirAll_onto (env : Env) (path : String) (pre : List Effect) (w : World) :
    mkdirAll env path (w.onto pre) =
      ((mkdirAll env path w).1.onto pre, (mkdirAll env path w).2) := by
  unfold mkdirAll
  cases h : env.mkdirFault w.fs path <;> simp [World.onto, World.emit, h]

/-- Effects performed earlier do not influence `execCommand`. -/
theorem execCommand_onto (env : Env) (command cwd : String) (pre : List Effect)
    (w : World) :
    execCommand env command cwd (w.onto pre) =
      ((execCommand env command cwd w).1.onto pre, (execCommand env command cwd w).2) := by
  unfold execCommand
  cases h : (env.runCmd command cwd w.fs).err <;> simp [World.onto, h]

/-- Effects performed earlier do not influence `WriteFile`. -/
theorem writeFile_onto (env : Env) (path content : String) (pre : List Effect)
    (w : World) :
    writeFile env path content (w.onto pre) =
      ((writeFile env path content w).1.onto pre, (writeFile env path content w).2) := by
  unfold writeFile
  cases h : env.writeFault w.fs path content <;> simp [World.onto, World.emit, h]

/-- Effects performed earlier do not influence the template switch. -/
theorem templateSwitch_onto (env : Env) (projectPath template : String)
    (pre : List Effect) (w : World) :
    templateSwitch env projectPath template (w.onto pre) =
      (templateSwitch env projectPath template w).onto pre := by
  unfold templateSwitch createWebServerTemplate createCLIToolTemplate createBasicTemplate
  split
  · rw [writeFile_onto]
  · split
    · rw [writeFile_onto]
    · rw [writeFile_onto]

/-- Effects performed earlier do not influence the git step. -/
theorem gitInitStep_onto (env : Env) (projectPath : String) (gitInit : Bool)
    (pre : List Effect) (w : World) :
    gitInitStep env projectPath gitInit (w.onto pre) =
      (gitInitStep env projectPath gitInit w).onto pre := by
  unfold gitInitStep
  cases gitInit
  · simp
  · simp only [if_true, execCommand_onto]
    rcases hx : execCommand env "git init" projectPath w with ⟨v, _ | e⟩ <;>
      simp [emit_onto]

/-- Effects performed earlier do not influence the last statements. -/
theorem finish_onto (env : Env) (projectName : String) (pre : List Effect) (w : World) :
    finish env projectName (w.onto pre) =
      ((finish env projectName w).1.onto pre, (finish env projectName w).2) := by
  unfold finish
  rw [writeFile_onto]
  rcases hx : writeFile env (env.join (env.join "." projectName) "README.md")
      (readmeContent projectName) w with ⟨v, _ | e⟩ <;>
    simp [emit_onto]

/-- Effects performed earlier do not influence `createGoProjectStructure`: it does the
same to the filesystem, returns the same, and appends the same effects. -/
theorem create_onto (env : Env) (projectName : String) (gitInit : Bool)
    (template : String) (pre : List Effect) (w : World) :
    createGoProjectStructure env projectName gitInit template (w.onto pre) =
      ((createGoProjectStructure env projectName gitInit template w).1.onto pre,
       (createGoProjectStructure env projectName gitInit template w).2) := by
  have hfs : (w.onto pre).fs = w.fs := rfl
  cases hstat : isNotExist (osStat env w.fs (env.join "." projectName)) with
  | false =>
    rw [create_guard env projectName gitInit template w hstat,
      create_guard env projectName gitInit template (w.onto pre) (by rw [hfs]; exact hstat)]
  | true =>
    have hstat2 : isNotExist (osStat env (w.onto pre).fs (env.join "." projectName))
        = true := by rw [hfs]; exact hstat
    rcases hmk : mkdirAll env (env.join "." projectName) w with ⟨w1, _ | e⟩
    · have hmk2 : mkdirAll env (env.join "." projectName) (w.onto pre) =
          (w1.onto pre, none) := by rw [mkdirAll_onto, hmk]
      rcases hmod : execCommand env ("go mod init " ++ projectName)
          (env.join "." projectName) (w1.emit .spinnerStart) with ⟨w2, _ | e⟩
      · have hmod2 : execCommand env ("go mod init " ++ projectName)
            (env.join "." projectName) ((w1.onto pre).emit .spinnerStart) =
            (w2.onto pre, none) := by rw [emit_onto, execCommand_onto, hmod]
        rw [create_mod_ok env projectName gitInit template w w1 w2 hstat hmk hmod,
          create_mod_ok env projectName gitInit template (w.onto pre) (w1.onto pre)
            (w2.onto pre) hstat2 hmk2 hmod2,
          templateSwitch_onto, gitInitStep_onto, finish_onto]
      · have hmod2 : execCommand env ("go mod init " ++ projectName)
            (env.join "." projectName) ((w1.onto pre).emit .spinnerStart) =
            (w2.onto pre, some e) := by rw [emit_onto, execCommand_onto, hmod]
        rw [create_mod_fails env projectName gitInit template w w1 w2 e hstat hmk hmod,
          create_mod_fails env projectName gitInit template (w.onto pre) (w1.onto pre)
            (w2.onto pre) e hstat2 hmk2 hmod2, emit_onto]
    · have hmk2 : mkdirAll env (env.join "." projectName) (w.onto pre) =
          (w1.onto pre, some e) := by rw [mkdirAll_onto, hmk]
      rw [create_mkdir_fails env projectName gitInit template w w1 e hstat hmk,
        create_mkdir_fails env projectName gitInit template (w.onto pre) (w1.onto pre) e
          hstat2 hmk2]

/-- Two lists without standard-error output concatenate to one. -/
theorem noStderr_append (xs ys : List Effect) (hx : noStderr xs) (hy : noStderr ys) :
    noStderr (xs ++ ys) := by
  intro e he
  rcases List.mem_append.1 he with h | h
  · exact hx e h
  · exact hy e h

/-- Recording an effect that is not on standard error keeps standard error empty. -/
theorem noStderr_emit (w : World) (e : Effect) (hw : noStderr w.effects)
    (he : e.isStderr = false) : noStderr (w.emit e).effects := by
  apply noStderr_append _ _ hw
  intro x hx
  rw [List.mem_singleton.1 hx]
  exact he

/-- The call `MkdirAll` writes nothing on standard error. -/
theorem noStderr_mkdirAll (env : Env) (path : String) (w : World)
    (hw : noStderr w.effects) : noStderr (mkdirAll env path w).1.effects := by
  unfold mkdirAll
  cases env.mkdirFault w.fs path <;> exact noStderr_emit w _ hw rfl

/-- The function `execCommand` writes nothing on standard error. -/
theorem noStderr_execCommand (env : Env) (command cwd : String) (w : World)
    (hw : noStderr w.effects) : noStderr (execCommand env command cwd w).1.effects := by
  have he : (execCommand env command cwd w).1.effects = w.effects ++ [.exec command cwd] := by
    unfold execCommand
    cases h : (env.runCmd command cwd w.fs).err <;> simp [h]
  rw [he]
  exact noStderr_emit w (.exec command cwd) hw rfl

/-- The call `WriteFile` writes nothing on standard error. -/
theorem noStderr_writeFile (env : Env) (path content : String) (w : World)
    (hw : noStderr w.effects) : noStderr (writeFile env path content w).1.effects := by
  rw [writeFile_effects]
  exact noStderr_emit w (.writeFile path content) hw rfl

/-- The template switch writes nothing on standard error. -/
theorem noStderr_templateSwitch (env : Env) (projectPath template : String) (w : World)
    (hw : noStderr w.effects) :
    noStderr (templateSwitch env projectPath template w).effects := by
  unfold templateSwitch createWebServerTemplate createCLIToolTemplate createBasicTemplate
  split
  · exact noStderr_writeFile env _ _ w hw
  · split
    · exact noStderr_writeFile env _ _ w hw
    · exact noStderr_writeFile env _ _ w hw

/-- The git step writes nothing on standard error. -/
theorem noStderr_gitInitStep (env : Env) (projectPath : String) (gitInit : Bool)
    (w : World) (hw : noStderr w.effects) :
    noStderr (gitInitStep env projectPath gitInit w).effects := by
  unfold gitInitStep
  cases gitInit
  · simpa using hw
  · have hx := noStderr_execCommand env "git init" projectPath w hw
    rcases hxe : execCommand env "git init" projectPath w with ⟨v, _ | e⟩
    · rw [hxe] at hx
      exact noStderr_emit v _ hx rfl
    · rw [hxe] at hx
      exact noStderr_emit v _ hx rfl

/-- The last statements write nothing on standard error. -/
theorem noStderr_finish (env : Env) (projectName : String) (w : World)
    (hw : noStderr w.effects) : noStderr (finish env projectName w).1.effects := by
  unfold finish
  have hx := noStderr_writeFile env (env.join (env.join "." projectName) "README.md")
    (readmeContent projectName) w hw
  rcases hxe : writeFile env (env.join (env.join "." projectName) "README.md")
      (readmeContent projectName) w with ⟨v, _ | e⟩
  · rw [hxe] at hx
    exact noStderr_emit _ _ (noStderr_emit v _ hx rfl) rfl
  · rw [hxe] at hx
    exact noStderr_emit v _ hx rfl

/-- A run of `createGoProjectStructure` writes nothing on standard error. -/
theorem noStderr_create (env : Env) (projectName : String) (gitInit : Bool)
    (template : String) (w : World) (hw : noStderr w.effects) :
    noStderr (createGoProjectStructure env projectName gitInit template w).1.effects := by
  cases hstat : isNotExist (osStat env w.fs (env.join "." projectName)) with
  | false =>
    rw [create_guard env projectName gitInit template w hstat]
    exact hw
  | true =>
    have h1 := noStderr_mkdirAll env (env.join "." projectName) w hw
    rcases hmk : mkdirAll env (env.join "." projectName) w with ⟨w1, _ | e⟩
    · rw [hmk] at h1
      have h2 := noStderr_execCommand env ("go mod init " ++ projectName)
        (env.join "." projectName) (w1.emit .spinnerStart) (noStderr_emit w1 _ h1 rfl)
      rcases hmod : execCommand env ("go mod init " ++ projectName)
          (env.join "." projectName) (w1.emit .spinnerStart) with ⟨w2, _ | e⟩
      · rw [hmod] at h2
        rw [create_mod_ok env projectName gitInit template w w1 w2 hstat hmk hmod]
        exact noStderr_finish env projectName _
          (noStderr_gitInitStep env _ gitInit _ (noStderr_templateSwitch env _ _ w2 h2))
      · rw [hmod] at h2
        rw [create_mod_fails env projectName gitInit template w w1 w2 e hstat hmk hmod]
        exact noStderr_emit w2 _ h2 rfl
    · rw [hmk] at h1
      rw [create_mkdir_fails env projectName gitInit template w w1 e hstat hmk]
      exact h1

/-- A run of `run` writes nothing on standard error. -/
theorem noStderr_run (env : Env) (flags : Flags) (w : World) (hw : noStderr w.effects) :
    noStderr (run env flags w).effects := by
  unfold run
  split
  · exact noStderr_emit w _ hw rfl
  · split
    · exact noStderr_emit w _ hw rfl
    · have h1 : noStderr (w.emit (.stdout (some .yellow)
          "Checking for updates is not implemented in this Go version.\n")).effects :=
        noStderr_emit w _ hw rfl
      simp only [checkForUpdates]
      split
      · rcases hc : readConfig env flags.configFile
            (w.emit (.stdout (some .yellow)
              "Checking for updates is not implemented in this Go version.\n")).fs
          with ⟨answers, _ | e⟩
        · simp only []
          have h2 := noStderr_create env answers.projectName answers.gitInit
            answers.template _ h1
          rcases hr : createGoProjectStructure env answers.projectName answers.gitInit
              answers.template (w.emit (.stdout (some .yellow)
                "Checking for updates is not implemented in this Go version.\n"))
            with ⟨w2, _ | e⟩
          · rw [hr] at h2
            exact h2
          · rw [hr] at h2
            exact noStderr_emit w2 _ h2 rfl
        · exact noStderr_emit _ _ h1 rfl
      · rcases hc : env.surveyAsk with ⟨answers, _ | e⟩
        · simp only []
          have h2 := noStderr_create env answers.projectName answers.gitInit
            answers.template _ (noStderr_emit _ .surveyAsk h1 rfl)
          rcases hr : createGoProjectStructure env answers.projectName answers.gitInit
              answers.template ((w.emit (.stdout (some .yellow)
                "Checking for updates is not implemented in this Go version.\n")).emit
                  .surveyAsk)
            with ⟨w2, _ | e⟩
          · rw [hr] at h2
            exact h2
          · rw [hr] at h2
            exact noStderr_emit w2 _ h2 rfl
        · exact noStderr_emit _ _ (noStderr_emit _ .surveyAsk h1 rfl) rfl

/-- The guard fires on every path that is present. -/
theorem guard_of_present (env : Env) (fs : FS) (path : String)
    (hpresent : fs.present path = true) : isNotExist (osStat env fs path) = false := by
  cases hn : isNotExist (osStat env fs path) with
  | false => rfl
  | true =>
    have := ((isNotExist_osStat env fs path).1 hn).2
    rw [hpresent] at this
    exact absurd this (by decide)

/-- The run of `run` with a configuration file that is read without error. -/
theorem run_config (env : Env) (configPath : String) (answers : ProjectConfig) (w : World)
    (hpath : configPath ≠ "") (hfile : readConfig env configPath w.fs = (answers, none)) :
    run env ⟨false, false, configPath⟩ w =
      match createGoProjectStructure env answers.projectName answers.gitInit
          answers.template (w.emit updateNotice) with
      | (w2, some e) => w2.emit (.stdout none ("Error during project setup: " ++ e ++ "\n"))
      | (w2, none) => w2 := by
  have hfs : (w.emit updateNotice).fs = w.fs := rfl
  simp only [run, checkForUpdates, Bool.false_eq_true, if_false, hpath, ne_eq,
    not_false_eq_true, if_true]
  rw [← updateNotice, hfs, hfile]

/-- The run of `run` with a questionnaire that is answered without error. -/
theorem run_ask (env : Env) (answers : ProjectConfig) (w : World)
    (hask : env.surveyAsk = (answers, none)) :
    run env ⟨false, false, ""⟩ w =
      match createGoProjectStructure env answers.projectName answers.gitInit
          answers.template ((w.emit updateNotice).emit .surveyAsk) with
      | (w2, some e) => w2.emit (.stdout none ("Error during project setup: " ++ e ++ "\n"))
      | (w2, none) => w2 := by
  simp only [run, checkForUpdates, Bool.false_eq_true, if_false, ne_eq, not_true_eq_false,
    hask]
  rfl

/-- The last statement of `run`, from a world whose earlier effects are `pre`. -/
theorem setup_onto (env : Env) (answers : ProjectConfig) (fs : FS) (pre : List Effect) :
    (match createGoProjectStructure env answers.projectName answers.gitInit
          answers.template ⟨fs, pre⟩ with
      | (w2, some e) => w2.emit (.stdout none ("Error during project setup: " ++ e ++ "\n"))
      | (w2, none) => w2) =
    ⟨(createGoProjectStructure env answers.projectName answers.gitInit answers.template
        ⟨fs, []⟩).1.fs, pre ++ setupEffects env answers fs⟩ := by
  have hw : (⟨fs, pre⟩ : World) = World.onto pre ⟨fs, []⟩ := by simp [World.onto]
  rw [hw, create_onto]
  unfold setupEffects
  rcases createGoProjectStructure env answers.projectName answers.gitInit
      answers.template ⟨fs, []⟩ with ⟨v, _ | e⟩ <;> simp [World.onto, World.emit]

/-! ## The claims -/

/-- C1 (directory guard).  For every project name, git flag and template id, when the
target path `filepath.Join(".", projectName)` is present on the filesystem,
`createGoProjectStructure` returns the error `directory <path> already exists` and hands
back the world it was given: the filesystem is unchanged and no effect at all was
performed (no `MkdirAll`, no external command, no `WriteFile`). -/
theorem directory_guard (env : Env) (projectName : String) (gitInit : Bool)
    (template : String) (w : World)
    (hpresent : w.fs.present (env.join "." projectName) = true) :
    createGoProjectStructure env projectName gitInit template w =
      (w, some ("directory " ++ env.join "." projectName ++ " already exists")) := by
  exact create_guard env projectName gitInit template w
    (guard_of_present env w.fs _ hpresent)

/-- Witness of C1: project `demo` in a directory that already holds `demo`. -/
theorem directory_guard_witness :
    demoTaken.fs.present (okEnv.join "." "demo") = true ∧
    createGoProjectStructure okEnv "demo" true "basic" demoTaken =
      (demoTaken, some "directory demo already exists") :=
  ⟨by decide, directory_guard okEnv "demo" true "basic" demoTaken (by decide)⟩

/-- C2 (template fallback).  For every template id other than `web-server` and
`cli-tool` (so for every id outside the three known ones, the empty string and ids that
differ only in case included), the template switch is the call of
`createBasicTemplate`: the one `WriteFile` it performs targets `<project>/main.go` with
the body of the `basic` template, and the whole run of `createGoProjectStructure` is
the run for template id `basic`. -/
theorem template_fallback (env : Env) (projectName : String) (gitInit : Bool)
    (template : String) (w : World)
    (hweb : template ≠ "web-server") (hcli : template ≠ "cli-tool") :
    templateSwitch env (env.join "." projectName) template w =
      (createBasicTemplate env (env.join "." projectName) w).1 ∧
    (templateSwitch env (env.join "." projectName) template w).effects =
      w.effects ++ [.writeFile (env.join (env.join "." projectName) "main.go")
        basicMainGoContent] ∧
    createGoProjectStructure env projectName gitInit template w =
      createGoProjectStructure env projectName gitInit "basic" w := by
  have hsw : ∀ w2 : World, templateSwitch env (env.join "." projectName) template w2 =
      templateSwitch env (env.join "." projectName) "basic" w2 := by
    intro w2
    simp [templateSwitch, hweb, hcli]
  refine ⟨by simp [templateSwitch, hweb, hcli], ?_, ?_⟩
  · simp only [templateSwitch, hweb, hcli, if_false, createBasicTemplate, writeFile]
    cases env.writeFault w.fs (env.join (env.join "." projectName) "main.go")
      basicMainGoContent <;> rfl
  · simp only [createGoProjectStructure, hsw]

/-- Witness of C2: the template id `Basic`, which differs from `basic` in case only. -/
theorem template_fallback_witness :
    (templateSwitch okEnv "demo" "Basic" emptyDir).effects =
      [.writeFile "demo/main.go" basicMainGoContent] ∧
    createGoProjectStructure okEnv "demo" false "Basic" emptyDir =
      createGoProjectStructure okEnv "demo" false "basic" emptyDir :=
  ⟨(template_fallback okEnv "demo" false "Basic" emptyDir (by decide) (by decide)).2.1,
   (template_fallback okEnv "demo" false "Basic" emptyDir (by decide) (by decide)).2.2⟩

/-- C3 (README content).  For every project name, git flag and template id, every run
of `createGoProjectStructure` that returns success leaves
`<project>/README.md` holding exactly `# <name>`, an empty line and
`Your project description here.`, with no trailing newline.  (A successful run has found
the target path absent and the module bootstrap successful.) -/
theorem readme_content (env : Env) (projectName : String) (gitInit : Bool)
    (template : String) (w : World)
    (hok : (createGoProjectStructure env projectName gitInit template w).2 = none) :
    (createGoProjectStructure env projectName gitInit template w).1.fs.lookup
        (env.join (env.join "." projectName) "README.md")
      = some (.file ("# " ++ projectName ++ "\n\nYour project description here.")) := by
  obtain ⟨w4, h4⟩ := create_ok_finish env projectName gitInit template w hok
  rw [h4] at hok ⊢
  exact (finish_ok env projectName w4 hok).1

/-- Witness of C3: project `demo`, created in an empty directory. -/
theorem readme_content_witness :
    (createGoProjectStructure okEnv "demo" true "basic" emptyDir).2 = none ∧
    (createGoProjectStructure okEnv "demo" true "basic" emptyDir).1.fs.lookup
        "demo/README.md"
      = some (.file "# demo\n\nYour project description here.") :=
  ⟨by decide, readme_content okEnv "demo" true "basic" emptyDir (by decide)⟩

/-- C4 (a failing `git init` is not fatal).  For every project name and template id:
when `os.Stat` reports the target path absent, `MkdirAll` and `go mod init` succeed,
the git flag is set, the `git init` command fails, and the README write does not fault,
`createGoProjectStructure` returns no error, after the failed command it prints the
warning, writes `README.md` and reports success, and `README.md` holds the README text:
the same bytes that any successful run for that project name leaves there, in
particular one whose `git init` succeeds. -/
theorem vcs_failure_non_fatal (env : Env) (projectName template : String)
    (w w1 w2 w4 : World) (e : String)
    (hstat : isNotExist (osStat env w.fs (env.join "." projectName)) = true)
    (hmk : mkdirAll env (env.join "." projectName) w = (w1, none))
    (hmod : execCommand env ("go mod init " ++ projectName) (env.join "." projectName)
      (w1.emit .spinnerStart) = (w2, none))
    (hgit : execCommand env "git init" (env.join "." projectName)
      (templateSwitch env (env.join "." projectName) template w2) = (w4, some e))
    (hreadme : env.writeFault w4.fs (env.join (env.join "." projectName) "README.md")
      (readmeContent projectName) = none) :
    (createGoProjectStructure env projectName true template w).2 = none ∧
    (createGoProjectStructure env projectName true template w).1.fs.lookup
        (env.join (env.join "." projectName) "README.md")
      = some (.file ("# " ++ projectName ++ "\n\nYour project description here.")) ∧
    (createGoProjectStructure env projectName true template w).1.effects =
      w4.effects ++
        [.stdout (some .yellow) "Git is not installed or initialization failed.\n",
         .writeFile (env.join (env.join "." projectName) "README.md")
           ("# " ++ projectName ++ "\n\nYour project description here."),
         .stdout (some .green)
           ("Go project " ++ projectName ++ " has been created successfully!\n"),
         .spinnerStop] ∧
    ∀ (gitInit2 : Bool) (template2 : String) (v : World),
      (createGoProjectStructure env projectName gitInit2 template2 v).2 = none →
      (createGoProjectStructure env projectName gitInit2 template2 v).1.fs.lookup
          (env.join (env.join "." projectName) "README.md") =
        (createGoProjectStructure env projectName true template w).1.fs.lookup
          (env.join (env.join "." projectName) "README.md") := by
  have hrun : createGoProjectStructure env projectName true template w =
      finish env projectName
        (w4.emit (.stdout (some .yellow)
          "Git is not installed or initialization failed.\n")) := by
    rw [create_mod_ok env projectName true template w w1 w2 hstat hmk hmod]
    simp [gitInitStep, hgit]
  have hfin := finish_eq env projectName
    (w4.emit (.stdout (some .yellow) "Git is not installed or initialization failed.\n"))
    (by simpa [World.emit] using hreadme)
  have hlook : (createGoProjectStructure env projectName true template w).1.fs.lookup
        (env.join (env.join "." projectName) "README.md")
      = some (.file ("# " ++ projectName ++ "\n\nYour project description here.")) := by
    rw [hrun, hfin]
    exact FS.lookup_insert_self _ _ _
  refine ⟨by rw [hrun, hfin], hlook, ?_, ?_⟩
  · rw [hrun, hfin]
    simp [World.emit, readmeContent]
  · intro gitInit2 template2 v hok
    rw [hlook]
    obtain ⟨v4, h4⟩ := create_ok_finish env projectName gitInit2 template2 v hok
    rw [h4] at hok ⊢
    exact (finish_ok env projectName v4 hok).1

/-- Witness of C4: project `demo` with the git flag, on a machine without git. -/
theorem vcs_failure_non_fatal_witness :
    (createGoProjectStructure noGitEnv "demo" true "basic" emptyDir).2 = none ∧
    (createGoProjectStructure noGitEnv "demo" true "basic" emptyDir).1.fs.lookup
        "demo/README.md"
      = some (.file "# demo\n\nYour project description here.") :=
  have h := vcs_failure_non_fatal noGitEnv "demo" "basic" emptyDir
    (mkdirAll noGitEnv "demo" emptyDir).1
    (execCommand noGitEnv "go mod init demo" "demo"
      ((mkdirAll noGitEnv "demo" emptyDir).1.emit .spinnerStart)).1
    (execCommand noGitEnv "git init" "demo"
      (templateSwitch noGitEnv "demo" "basic"
        (execCommand noGitEnv "go mod init demo" "demo"
          ((mkdirAll noGitEnv "demo" emptyDir).1.emit .spinnerStart)).1)).1
    "error executing command: exit status 1, output: git is not recognized as an internal or external command"
    (by decide) (by decide) (by decide) (by decide) (by decide)
  ⟨h.1, h.2.1⟩

/-- C5 as stated fails.  For project name `a&b` in an empty directory, `os.Stat`
reports the target path absent, `MkdirAll` succeeds and the command
`go mod init a&b` fails, so `createGoProjectStructure` returns the error of
`execCommand`; but the failed command has written `a&b/go.mod`, so the filesystem the
run leaves is not the one right after the directory was created. -/
theorem module_bootstrap_failure_counterexample :
    isNotExist (osStat ampersandEnv emptyDir.fs (ampersandEnv.join "." "a&b")) = true ∧
    (mkdirAll ampersandEnv (ampersandEnv.join "." "a&b") emptyDir).2 = none ∧
    (ampersandEnv.runCmd "go mod init a&b" (ampersandEnv.join "." "a&b")
      (mkdirAll ampersandEnv (ampersandEnv.join "." "a&b") emptyDir).1.fs).err =
        some "exit status 1" ∧
    (createGoProjectStructure ampersandEnv "a&b" true "basic" emptyDir).2 =
      some "error executing command: exit status 1, output: go: creating new go.mod: module a; b is not recognized as an internal or external command" ∧
    (mkdirAll ampersandEnv (ampersandEnv.join "." "a&b") emptyDir).1.fs =
      [("a&b", .dir), (".", .dir)] ∧
    (createGoProjectStructure ampersandEnv "a&b" true "basic" emptyDir).1.fs =
      [("a&b/go.mod", .file "module a"), ("a&b", .dir), (".", .dir)] ∧
    (createGoProjectStructure ampersandEnv "a&b" true "basic" emptyDir).1.fs ≠
      (mkdirAll ampersandEnv (ampersandEnv.join "." "a&b") emptyDir).1.fs := by
  decide

/-- C5 as amended.  For every project name, git flag and template id: when `os.Stat`
reports the target path absent, `MkdirAll` succeeds and the command
`go mod init <name>` fails, `createGoProjectStructure` returns the error of
`execCommand` and stops: its effects are the `MkdirAll`, the start of the spinner, the
one command and the deferred stop of the spinner, so nothing writes `main.go` or
`README.md`, `git init` is not run, and nothing is rolled back.  The filesystem it
leaves is the one the failed command returned in; when that command itself changed
nothing, this is exactly the filesystem right after `MkdirAll`, in which the new
directory is still there. -/
theorem module_bootstrap_failure_fatal (env : Env) (projectName : String)
    (gitInit : Bool) (template : String) (w w1 : World) (e : String)
    (hstat : isNotExist (osStat env w.fs (env.join "." projectName)) = true)
    (hmk : mkdirAll env (env.join "." projectName) w = (w1, none))
    (hfail : (env.runCmd ("go mod init " ++ projectName) (env.join "." projectName)
      w1.fs).err = some e) :
    (createGoProjectStructure env projectName gitInit template w).2 =
      some ("error executing command: " ++ e ++ ", output: " ++
        (env.runCmd ("go mod init " ++ projectName) (env.join "." projectName)
          w1.fs).output) ∧
    (createGoProjectStructure env projectName gitInit template w).1.effects =
      w.effects ++ [.mkdirAll (env.join "." projectName), .spinnerStart,
        .exec ("go mod init " ++ projectName) (env.join "." projectName), .spinnerStop] ∧
    (createGoProjectStructure env projectName gitInit template w).1.fs =
      (env.runCmd ("go mod init " ++ projectName) (env.join "." projectName) w1.fs).fs ∧
    ((env.runCmd ("go mod init " ++ projectName) (env.join "." projectName) w1.fs).fs
        = w1.fs →
      (createGoProjectStructure env projectName gitInit template w).1.fs = w1.fs ∧
      (createGoProjectStructure env projectName gitInit template w).1.fs.lookup
        (env.join "." projectName) = some .dir) := by
  have hcreated := mkdirAll_creates env (env.join "." projectName) w w1
    ((isNotExist_osStat env w.fs _).1 hstat).2 hmk
  have hmod : execCommand env ("go mod init " ++ projectName) (env.join "." projectName)
      (w1.emit .spinnerStart) =
      (⟨(env.runCmd ("go mod init " ++ projectName) (env.join "." projectName) w1.fs).fs,
        w1.effects ++ [.spinnerStart,
          .exec ("go mod init " ++ projectName) (env.join "." projectName)]⟩,
       some ("error executing command: " ++ e ++ ", output: " ++
        (env.runCmd ("go mod init " ++ projectName) (env.join "." projectName)
          w1.fs).output)) := by
    simp [execCommand, World.emit, hfail]
  rw [create_mod_fails env projectName gitInit template w w1 _ _ hstat hmk hmod]
  refine ⟨rfl, ?_, rfl, ?_⟩
  · simp [World.emit, hcreated.2]
  · intro hquiet
    simp only [World.emit]
    rw [hquiet]
    exact ⟨rfl, hcreated.1⟩

/-- Witness of C5 as amended: project `demo` on a machine without the go tool chain. -/
theorem module_bootstrap_failure_fatal_witness :
    (createGoProjectStructure noGoEnv "demo" true "cli-tool" emptyDir).2 =
      some "error executing command: exit status 1, output: go is not recognized as an internal or external command" ∧
    (createGoProjectStructure noGoEnv "demo" true "cli-tool" emptyDir).1 =
      ⟨[("demo", .dir), (".", .dir)],
       [.mkdirAll "demo", .spinnerStart, .exec "go mod init demo" "demo", .spinnerStop]⟩ :=
  have h := module_bootstrap_failure_fatal noGoEnv "demo" true "cli-tool" emptyDir
    (mkdirAll noGoEnv "demo" emptyDir).1 "exit status 1"
    (by decide) (by decide) (by decide)
  ⟨h.1, by decide⟩

/-- C6, the code at the failing input.  On a machine where the write of `demo/main.go`
fails (every call of `createBasicTemplate` on `demo` returns that error) while the
directory guard, the module bootstrap and the README write succeed,
`createGoProjectStructure("demo", false, "basic")` returns no error and prints the
success message, although `demo/main.go` does not exist afterwards. -/
theorem main_go_write_failure_swallowed :
    (∀ v : World, (createBasicTemplate mainGoFaultEnv "demo" v).2 =
      some "open demo/main.go: There is not enough space on the disk.") ∧
    (createGoProjectStructure mainGoFaultEnv "demo" false "basic" emptyDir).2 = none ∧
    (createGoProjectStructure mainGoFaultEnv "demo" false "basic" emptyDir).1.fs.lookup
      "demo/main.go" = none ∧
    (createGoProjectStructure mainGoFaultEnv "demo" false "basic" emptyDir).1.effects =
      [.mkdirAll "demo", .spinnerStart, .exec "go mod init demo" "demo",
       .writeFile "demo/main.go" basicMainGoContent,
       .writeFile "demo/README.md" "# demo\n\nYour project description here.",
       .stdout (some .green) "Go project demo has been created successfully!\n",
       .spinnerStop] := by
  refine ⟨?_, by decide, by decide, by decide⟩
  intro v
  have hj : mainGoFaultEnv.join "demo" "main.go" = "demo/main.go" := by decide
  have hf : mainGoFaultEnv.writeFault v.fs "demo/main.go" basicMainGoContent =
      some "open demo/main.go: There is not enough space on the disk." := by
    simp [mainGoFaultEnv, mkEnv]
  simp only [createBasicTemplate, writeFile, hj, hf]

/-- C8 (an empty project name is rejected).  For every git flag and template id, when
`filepath.Join(".", "")` is `.` and the current directory exists,
`createGoProjectStructure` on the empty name returns the error
`directory . already exists` and hands back the world it was given: no directory is
created, no command is run and no file is written.  A run of `run` whose configuration
file yields the empty name (`readConfig` does not check it) therefore only prints the
update notice and `Error during project setup: directory . already exists`. -/
theorem empty_name_rejected (env : Env) (gitInit : Bool) (template : String) (w : World)
    (configPath : String)
    (hjoin : env.join "." "" = ".") (hcwd : w.fs.present "." = true) :
    createGoProjectStructure env "" gitInit template w =
      (w, some "directory . already exists") ∧
    (configPath ≠ "" →
      readConfig env configPath w.fs = (⟨"", gitInit, template⟩, none) →
      run env ⟨false, false, configPath⟩ w =
        ⟨w.fs, w.effects ++ [updateNotice,
          .stdout none "Error during project setup: directory . already exists\n"]⟩) := by
  have hguard : ∀ v : World, v.fs = w.fs →
      createGoProjectStructure env "" gitInit template v =
        (v, some "directory . already exists") := by
    intro v hv
    rw [create_guard env "" gitInit template v
      (guard_of_present env v.fs _ (by rw [hjoin, hv]; exact hcwd)), hjoin]
    rfl
  refine ⟨hguard w rfl, ?_⟩
  intro hpath hfile
  rw [run_config env configPath _ w hpath hfile]
  simp only []
  rw [hguard (w.emit updateNotice) rfl]
  simp [World.emit]

/-- Witness of C8: the configuration file `empty.json`, whose project name is empty. -/
theorem empty_name_rejected_witness :
    createGoProjectStructure okEnv "" false "basic" withConfigs =
      (withConfigs, some "directory . already exists") ∧
    run okEnv ⟨false, false, "empty.json"⟩ withConfigs =
      ⟨withConfigs.fs, [updateNotice,
        .stdout none "Error during project setup: directory . already exists\n"]⟩ :=
  have h := empty_name_rejected okEnv false "basic" withConfigs "empty.json"
    (by decide) (by decide)
  ⟨h.1, h.2 (by decide) (by decide)⟩

/-- C9 as stated fails.  With the questionnaire answered `demo` in a directory that
already holds `demo`, orchestration fails (`createGoProjectStructure` returns
`directory demo already exists`), yet the process exits with code 0, the message goes
to standard output and nothing is written on standard error; the same holds when the
configuration file cannot be read. -/
theorem exit_code_counterexample :
    (createGoProjectStructure okEnv "demo" true "basic"
      ⟨demoTaken.fs, [updateNotice, .surveyAsk]⟩).2 =
        some "directory demo already exists" ∧
    (main okEnv (.parsed ⟨false, false, ""⟩) demoTaken).2 = 0 ∧
    (main okEnv (.parsed ⟨false, false, ""⟩) demoTaken).1.effects =
      [updateNotice, .surveyAsk,
       .stdout none "Error during project setup: directory demo already exists\n"] ∧
    (main okEnv (.parsed ⟨false, false, ""⟩) demoTaken).1.effects.filter Effect.isStderr
      = [] ∧
    (main okEnv (.parsed ⟨false, false, "missing.json"⟩) demoTaken) =
      (⟨demoTaken.fs, [updateNotice,
        .stdout none "Error reading configuration file: open missing.json: no such file or directory\n"]⟩,
       0) := by
  decide

/-- C9 as amended.  For every invocation that cobra parses, the process exits with
code 0 and writes nothing on standard error, whether orchestration fails or not; exit
code 1 is that of an invocation `rootCmd.Execute` itself rejects.  When
`createGoProjectStructure` returns an error `e`, the last thing the process does is
print `Error during project setup: e` on standard output; when the configuration file
cannot be read or parsed with error `e`, it prints
`Error reading configuration file: e` on standard output and does nothing else. -/
theorem exit_code_on_failure (env : Env) (flags : Flags) (fs : FS) :
    (main env (.parsed flags) ⟨fs, []⟩).2 = 0 ∧
    noStderr (main env (.parsed flags) ⟨fs, []⟩).1.effects ∧
    (∀ err, (main env (.flagError err) ⟨fs, []⟩).2 = 1) ∧
    (∀ (answers : ProjectConfig) (w2 : World) (e : String),
      env.surveyAsk = (answers, none) →
      createGoProjectStructure env answers.projectName answers.gitInit answers.template
        ⟨fs, [updateNotice, .surveyAsk]⟩ = (w2, some e) →
      main env (.parsed ⟨false, false, ""⟩) ⟨fs, []⟩ =
        (w2.emit (.stdout none ("Error during project setup: " ++ e ++ "\n")), 0)) ∧
    (∀ (configPath : String) (answers : ProjectConfig) (w2 : World) (e : String),
      configPath ≠ "" →
      readConfig env configPath fs = (answers, none) →
      createGoProjectStructure env answers.projectName answers.gitInit answers.template
        ⟨fs, [updateNotice]⟩ = (w2, some e) →
      main env (.parsed ⟨false, false, configPath⟩) ⟨fs, []⟩ =
        (w2.emit (.stdout none ("Error during project setup: " ++ e ++ "\n")), 0)) ∧
    (∀ (configPath : String) (answers : ProjectConfig) (e : String),
      configPath ≠ "" →
      readConfig env configPath fs = (answers, some e) →
      main env (.parsed ⟨false, false, configPath⟩) ⟨fs, []⟩ =
        (⟨fs, [updateNotice,
          .stdout none ("Error reading configuration file: " ++ e ++ "\n")]⟩, 0)) := by
  refine ⟨rfl, ?_, fun _ => rfl, ?_, ?_, ?_⟩
  · exact noStderr_run env flags ⟨fs, []⟩ (fun e he => by simp at he)
  · intro answers w2 e hask hfail
    simp only [main]
    rw [run_ask env answers ⟨fs, []⟩ hask]
    have hw : ((⟨fs, []⟩ : World).emit updateNotice).emit .surveyAsk =
        ⟨fs, [updateNotice, .surveyAsk]⟩ := rfl
    rw [hw, hfail]
  · intro configPath answers w2 e hpath hfile hfail
    simp only [main]
    rw [run_config env configPath answers ⟨fs, []⟩ hpath hfile]
    have hw : (⟨fs, []⟩ : World).emit updateNotice = ⟨fs, [updateNotice]⟩ := rfl
    rw [hw, hfail]
  · intro configPath answers e hpath hfile
    have hfs : ((⟨fs, []⟩ : World).emit updateNotice).fs = fs := rfl
    simp only [main, run, checkForUpdates, Bool.false_eq_true, if_false, hpath, ne_eq,
      not_false_eq_true, if_true]
    rw [← updateNotice, hfs, hfile]
    rfl

/-- Witness of C9 as amended: the questionnaire answered `demo` in a directory that
already holds `demo`. -/
theorem exit_code_on_failure_witness :
    main okEnv (.parsed ⟨false, false, ""⟩) ⟨demoTaken.fs, []⟩ =
      (⟨demoTaken.fs, [updateNotice, .surveyAsk,
        .stdout none "Error during project setup: directory demo already exists\n"]⟩, 0) :=
  (exit_code_on_failure okEnv ⟨false, false, ""⟩ demoTaken.fs).2.2.2.1 demoBasic
    ⟨demoTaken.fs, [updateNotice, .surveyAsk]⟩ "directory demo already exists"
    (by decide) (by decide)

/-- C10 (the source of the answers does not matter).  Take a run of `run` that reads its
`ProjectConfig` from a configuration file and a run that gets it from the questionnaire,
both from the same world and on the same machine.  When the two records have equal
project name, git flag and template id, both runs leave the same filesystem, the one
`createGoProjectStructure` produces from the three fields, and after input resolution
(the update notice, and the questionnaire in the interactive run) both perform the
same sequence of effects `setupEffects`. -/
theorem input_source_independence (env : Env) (w : World) (configPath : String)
    (fromFile fromAsk : ProjectConfig)
    (hpath : configPath ≠ "")
    (hfile : readConfig env configPath w.fs = (fromFile, none))
    (hask : env.surveyAsk = (fromAsk, none))
    (hname : fromFile.projectName = fromAsk.projectName)
    (hgit : fromFile.gitInit = fromAsk.gitInit)
    (htemplate : fromFile.template = fromAsk.template) :
    (run env ⟨false, false, configPath⟩ w).fs = (run env ⟨false, false, ""⟩ w).fs ∧
    (run env ⟨false, false, configPath⟩ w).fs =
      (createGoProjectStructure env fromAsk.projectName fromAsk.gitInit fromAsk.template
        ⟨w.fs, []⟩).1.fs ∧
    (run env ⟨false, false, configPath⟩ w).effects =
      w.effects ++ [updateNotice] ++ setupEffects env fromAsk w.fs ∧
    (run env ⟨false, false, ""⟩ w).effects =
      w.effects ++ [updateNotice, .surveyAsk] ++ setupEffects env fromAsk w.fs := by
  have hcfg : fromFile = fromAsk := by
    cases fromFile
    cases fromAsk
    simp only [ProjectConfig.mk.injEq]
    exact ⟨hname, hgit, htemplate⟩
  subst hcfg
  have h1 : w.emit updateNotice = ⟨w.fs, w.effects ++ [updateNotice]⟩ := rfl
  have h2 : (w.emit updateNotice).emit .surveyAsk =
      ⟨w.fs, w.effects ++ [updateNotice, .surveyAsk]⟩ := by
    simp [World.emit]
  rw [run_config env configPath fromFile w hpath hfile, run_ask env fromFile w hask,
    h2, h1, setup_onto, setup_onto]
  simp

/-- Witness of C10: `demo.json` and a questionnaire answered alike, in a directory
holding the configuration files. -/
theorem input_source_independence_witness :
    (run okEnv ⟨false, false, "demo.json"⟩ withConfigs).fs =
      (run okEnv ⟨false, false, ""⟩ withConfigs).fs ∧
    (run okEnv ⟨false, false, "demo.json"⟩ withConfigs).effects =
      [updateNotice] ++ setupEffects okEnv demoBasic withConfigs.fs ∧
    (run okEnv ⟨false, false, ""⟩ withConfigs).effects =
      [updateNotice, .surveyAsk] ++ setupEffects okEnv demoBasic withConfigs.fs :=
  have h := input_source_independence okEnv withConfigs "demo.json" demoBasic demoBasic
    (by decide) (by decide) (by decide) rfl rfl rfl
  ⟨h.1, h.2.2.1, h.2.2.2⟩

end GoCli
